import Mathlib

/-!
Shallow embedding of the radmap orchestration layer: the blocking CLI
driver (src/bin/radmap.rs) and the non-blocking GUI driver (src/main.rs).
Pure decision logic is translated into executable Lean functions; each
driver's control flow is modelled as an explicit event trace.  External
collaborators (the glcm computation engine, the array_lib codecs, the
egui widgets) are modelled only at their call boundary.
-/

namespace Radmap

/-- Modelled from the spec: the GLCMFeature enum lives in the external
glcm crate (only its use sites appear in this repository).  The spec
(section 8) names energy, homogeneity and contrast among the features.
The Rust cast written as f-as-usize is modelled by `discriminant`, the
position of the variant in declaration order. -/
inductive GLCMFeature
  | energy
  | homogeneity
  | contrast
deriving DecidableEq

/-- Position of a feature variant in the enum's declaration order,
modelling the Rust discriminant cast used at radmap.rs line 173 and
main.rs line 455. -/
def GLCMFeature.discriminant : GLCMFeature → Nat
  | GLCMFeature.energy => 0
  | GLCMFeature.homogeneity => 1
  | GLCMFeature.contrast => 2

/-- Modelled from the spec: the default MapOpts of the external glcm
crate starts with every feature requested; the CLI keeps that default
when the all-features flag is passed (radmap.rs lines 108-114). -/
def allGLCMFeatures : List GLCMFeature :=
  [GLCMFeature.energy, GLCMFeature.homogeneity, GLCMFeature.contrast]

/-- Feature-set resolution of the CLI (radmap.rs lines 108-119): when
the all-features flag is absent the default set is cleared and the -f
flags are inserted (keyed map insertion, so duplicate keys collapse);
every omit flag is then removed from the map. -/
def resolvedFeatures (allF : Bool) (incl omits : List GLCMFeature) : List GLCMFeature :=
  (if allF then allGLCMFeatures else incl.dedup).filter (fun f => !(omits.contains f))

/-- Events of the CLI driver's run, in program order (radmap.rs main,
lines 98-182).  statOutputDir / statInputVol are the existence checks of
lines 98-104; the remaining events mirror load, shape validation, the
compute spawn, the progress poll loop and the inline write stage. -/
inductive CliEvent
  | statOutputDir
  | statInputVol
  | emptyFeaturePanic
  | loadVol
  | loadMask
  | shapePanic
  | spawnCompute
  | pollSnap (v : Nat)
  | sleepTick
  | joinCompute
  | writeOut (f : GLCMFeature)
deriving DecidableEq

/-- Whether a CLI event is a progress-counter read. -/
def CliEvent.isPoll : CliEvent → Bool
  | CliEvent.pollSnap _ => true
  | _ => false

/-- Termination status of a modelled CLI run. -/
inductive CliStatus
  | completed
  | emptyFeatureSet
  | shapeMismatch
deriving DecidableEq

/-- Progress poll loop of the CLI (radmap.rs lines 156-160): while the
bar position is below the total, read the shared counter, move the bar
to the value read, and sleep.  `pos` is the bar position (initially 0)
and `snaps` the successive values observed on the shared counter; the
model consumes one observation per iteration. -/
def pollLoop (total : Nat) : Nat → List Nat → List CliEvent
  | _, [] => []
  | pos, v :: rest =>
    if pos < total then
      CliEvent.pollSnap v :: CliEvent.sleepTick :: pollLoop total v rest
    else []

/-- CLI phase after validation (radmap.rs lines 147-182): spawn the
compute thread, run the poll loop only when the progress flag is set,
join the compute thread, then write one output per requested feature
inline.  The write order over the feature map is arbitrary in the
source (HashMap iteration); the model fixes the resolved-list order. -/
def cliComputePhase (flag : Bool) (total : Nat) (snaps : List Nat)
    (feats : List GLCMFeature) : List CliEvent :=
  [CliEvent.spawnCompute] ++ (if flag then pollLoop total 0 snaps else [])
    ++ [CliEvent.joinCompute] ++ feats.map CliEvent.writeOut

/-- The CLI driver's run (radmap.rs main, lines 98-182), as an event
trace plus a termination status.  Shapes are the shape-ns value compared
by the assert at line 130.  Control order follows the source: existence
checks, feature resolution with the empty-set abort of line 121, volume
load, optional mask load followed by the synchronous shape assert, and
only then the compute phase. -/
def cliMain (allF : Bool) (incl omits : List GLCMFeature) (volShape : List Nat)
    (maskShape : Option (List Nat)) (flag : Bool) (snaps : List Nat) :
    List CliEvent × CliStatus :=
  let feats := resolvedFeatures allF incl omits
  if feats = [] then
    ([CliEvent.statOutputDir, CliEvent.statInputVol, CliEvent.emptyFeaturePanic],
     CliStatus.emptyFeatureSet)
  else
    match maskShape with
    | some ms =>
      if ms = volShape then
        ([CliEvent.statOutputDir, CliEvent.statInputVol, CliEvent.loadVol, CliEvent.loadMask]
           ++ cliComputePhase flag volShape.prod snaps feats, CliStatus.completed)
      else
        ([CliEvent.statOutputDir, CliEvent.statInputVol, CliEvent.loadVol, CliEvent.loadMask,
          CliEvent.shapePanic], CliStatus.shapeMismatch)
    | none =>
      ([CliEvent.statOutputDir, CliEvent.statInputVol, CliEvent.loadVol]
         ++ cliComputePhase flag volShape.prod snaps feats, CliStatus.completed)

/-- Events of one GUI launch tick (main.rs update_glcm_launcher, lines
167-216), in program order: spawn the volume loader, spawn the mask
loader when a mask path is selected, join both loaders on the driving
thread, reset the progress counter, and spawn the compute thread. -/
inductive GuiEvent
  | spawnVolLoad
  | spawnMaskLoad
  | joinVolLoad
  | joinMaskLoad
  | resetProgress
  | spawnCompute
deriving DecidableEq

/-- Outcome of the GUI compute worker: either the glcm engine was
invoked with the requested feature pairs, or the worker terminated
abnormally before reaching the engine. -/
inductive WorkerOutcome
  | engineRan (feats : List (GLCMFeature × List Char))
  | panicked
deriving DecidableEq

/-- Trace of one GUI launch tick; it depends only on whether a mask path
is selected (main.rs lines 167-216). -/
def guiLaunchTrace (hasMask : Bool) : List GuiEvent :=
  [GuiEvent.spawnVolLoad] ++ (if hasMask then [GuiEvent.spawnMaskLoad] else [])
    ++ [GuiEvent.joinVolLoad] ++ (if hasMask then [GuiEvent.joinMaskLoad] else [])
    ++ [GuiEvent.resetProgress, GuiEvent.spawnCompute]

/-- Body of the GUI compute thread (main.rs lines 203-210): the
volume/mask shape-ns assert runs inside the spawned thread; on mismatch
the worker terminates abnormally before the glcm engine is invoked. -/
def guiComputeWorker (feats : List (GLCMFeature × List Char)) (volShape : List Nat)
    (maskShape : Option (List Nat)) : WorkerOutcome :=
  match maskShape with
  | some ms =>
    if ms = volShape then WorkerOutcome.engineRan feats else WorkerOutcome.panicked
  | none => WorkerOutcome.engineRan feats

/-- One GUI launch (main.rs lines 167-216): the tick's event trace plus
the eventual outcome of the spawned compute worker.  Note that the trace
inspects neither the feature set nor the shapes: no emptiness or shape
check happens on the driving thread. -/
def guiLaunch (feats : List (GLCMFeature × List Char)) (volShape : List Nat)
    (maskShape : Option (List Nat)) : List GuiEvent × WorkerOutcome :=
  (guiLaunchTrace maskShape.isSome, guiComputeWorker feats volShape maskShape)

/-- Result of the GUI tick that observes a finished compute thread
(main.rs lines 219-228): on a normal result the launcher records it and
flips the running/succeeded labels; a worker that terminated abnormally
makes the expect call on join terminate the driving thread itself. -/
inductive GuiJoinResult
  | labelsUpdated (running succeeded : Bool)
  | driverPanic
deriving DecidableEq

/-- Join step of update_glcm_launcher (main.rs lines 219-228). -/
def update_glcm_launcher_join : WorkerOutcome → GuiJoinResult
  | WorkerOutcome.engineRan _ => GuiJoinResult.labelsUpdated false true
  | WorkerOutcome.panicked => GuiJoinResult.driverPanic

/-- Value handed to the progress widget by update_progress (main.rs
lines 258-264): the raw ratio of the counter over the total.  The source
divides two f64 casts; the model uses exact rationals, which agrees with
the source wherever the division is exact (in particular at every input
used in the theorems below). -/
def update_progress_value (state total : Nat) : ℚ :=
  (state : ℚ) / (total : ℚ)

/-- Follows the spec's words (section 4.1): snapshot over total, clamped
to the unit interval, for display. -/
def fraction_spec_clamped (state total : Nat) : ℚ :=
  min 1 (max 0 (update_progress_value state total))

/-- Offset and length of the slice the CLI write stage reads for feature
f out of the results buffer (radmap.rs lines 171-174): the feature's
enum discriminant times the volume element count, length one volume. -/
def cliFeatureSlice (f : GLCMFeature) (stride : Nat) : Nat × Nat :=
  (f.discriminant * stride, stride)

/-- Offset and length of the slice the GUI write stage reads for feature
f (main.rs lines 453-456); same addressing as the CLI. -/
def guiFeatureSlice (f : GLCMFeature) (stride : Nat) : Nat × Nat :=
  (f.discriminant * stride, stride)

/-- Position of a feature inside a requested-feature list. -/
def indexInList (f : GLCMFeature) : List GLCMFeature → Nat
  | [] => 0
  | g :: rest => if g = f then 0 else indexInList f rest + 1

/-- Follows the spec's words (section 4.3): block index of a feature is
its position in the requested feature set, one contiguous block per
requested feature. -/
def specFeatureSlice (requested : List GLCMFeature) (f : GLCMFeature) (stride : Nat) :
    Nat × Nat :=
  (indexInList f requested * stride, stride)

/-- Characters after the last dot of a character list, if any dot
occurs. -/
def extAfterLastDot : List Char → Option (List Char)
  | [] => none
  | c :: rest =>
    match extAfterLastDot rest with
    | some e => some e
    | none => if c = '.' then some rest else none

/-- Extension of a file name given as a character list: the portion
after the final dot, none when there is no dot, where a leading dot of a
hidden file does not count as an extension separator. -/
def fileExtensionList : List Char → Option (List Char)
  | [] => none
  | c :: rest =>
    if c = '.' then extAfterLastDot rest else extAfterLastDot (c :: rest)

/-- Extension of a file name as Rust's Path extension computes it. -/
def fileExtension (s : String) : Option String :=
  (fileExtensionList s.toList).map String.mk

/-- Codec variants of the volume reader. -/
inductive VolCodec
  | nifti
  | nrrd
deriving DecidableEq

/-- Outcome of dispatching a volume read on a file name. -/
inductive ReadVolumeResult
  | read (c : VolCodec)
  | noExtensionPanic
  | unsupportedPanic
deriving DecidableEq

/-- Extension dispatch of the CLI's read_volume (radmap.rs lines
190-204): the extension equal to nii or to the dotted string routes to
the NIfTI codec, nhdr or nrrd to the NRRD codec, anything else aborts
before any read; a missing extension aborts at the expect call. -/
def read_volume (fname : String) : ReadVolumeResult :=
  match fileExtension fname with
  | none => ReadVolumeResult.noExtensionPanic
  | some ext =>
    if ext = "nii" ∨ ext = "nii.gz" then ReadVolumeResult.read VolCodec.nifti
    else if ext = "nhdr" ∨ ext = "nrrd" then ReadVolumeResult.read VolCodec.nrrd
    else ReadVolumeResult.unsupportedPanic

/-- Extension dispatch of the GUI loader threads (main.rs lines 170-176
and 182-188): the same nii test, but every other extension falls through
to the NRRD reader; there is no unsupported-extension branch. -/
def gui_load (fname : String) : ReadVolumeResult :=
  match fileExtension fname with
  | none => ReadVolumeResult.noExtensionPanic
  | some ext =>
    if ext = "nii" ∨ ext = "nii.gz" then ReadVolumeResult.read VolCodec.nifti
    else ReadVolumeResult.read VolCodec.nrrd

/-- CLI bin-count option (radmap.rs line 80): the flag value, defaulting
to 32. -/
def cli_n_bins (arg : Option Nat) : Nat :=
  arg.getD 32

/-- CLI kernel-radius option (radmap.rs line 81): unsigned absolute
value of the flag, defaulting to 1. -/
def cli_kernel_radius (arg : Option Int) : Nat :=
  (arg.map Int.natAbs).getD 1

/-- Value of the Rust expression abs-then-cast-to-usize on an i32 input
p (so -2147483648 <= p < 2147483648, the range a successful i32 parse
can produce), on a 64-bit target in a release profile: for the minimal
i32 the abs wraps to itself and the usize cast sign-extends, giving
2^64 - 2^31; every other input gives its absolute value.  In a debug
profile the minimal i32 instead aborts on overflow — under either
profile the committed value is not the absolute value there. -/
def i32_abs_as_usize (p : Int) : Nat :=
  if p = -2147483648 then 18446744071562067968 else p.natAbs

/-- GUI kernel-radius field commit (main.rs lines 347-355): an entry
that fails to parse leaves the value unchanged; zero becomes 1; any
other value is replaced by the i32 abs-then-cast result above. -/
def gui_kernel_radius_update (old : Nat) (parsed : Option Int) : Nat :=
  match parsed with
  | none => old
  | some p => if p = 0 then 1 else i32_abs_as_usize p

/-- GUI bin-count field commit (main.rs lines 363-371): an entry that
fails to parse leaves the value unchanged; a value below 1 becomes 4;
otherwise the absolute value (equal to the value itself) is kept. -/
def gui_num_bins_update (old : Nat) (parsed : Option Int) : Nat :=
  match parsed with
  | none => old
  | some p => if p < 1 then 4 else p.natAbs

/-- Display alias stored for a feature by the GUI's default state and by
the select-all button (main.rs lines 287 and 303): the feature name with
underscores replaced by spaces.  Names are modelled as character
lists. -/
def feature_display_alias (name : List Char) : List Char :=
  name.map (fun c => if c = '_' then ' ' else c)

/-- Display alias stored when a feature is re-selected through its
individual checkbox (main.rs line 311): the lowercased feature name,
underscores kept. -/
def feature_checkbox_alias (name : List Char) : List Char :=
  name.map Char.toLower

/-- Output file name built by the GUI write stage (main.rs line 457):
the input stem, an underscore, then the stored alias verbatim. -/
def gui_output_file_name (stem al : List Char) : List Char :=
  stem ++ '_' :: al

/-- Claim C10 (corrected, amended part): the CLI maps a supplied kernel
radius r to its absolute value through unsigned_abs, which is exact on
the whole i32 range including the minimum (so 0 stays 0), and defaults
to 32 bins and radius 1; the GUI replaces a radius entry parsing to 0 by
1 and a negative entry other than the minimal i32 by its absolute value,
while the minimal i32 entry overflows the abs and commits 2^64 - 2^31
(release profile on a 64-bit target; a debug profile aborts instead);
a bin-count entry parsing below 1 becomes 4 instead of the default
32. -/
theorem c10_numeric_option_normalization :
    (∀ r : Int, cli_kernel_radius (some r) = r.natAbs) ∧
    cli_kernel_radius (some 0) = 0 ∧
    cli_kernel_radius none = 1 ∧
    cli_n_bins none = 32 ∧
    (∀ old : Nat, gui_kernel_radius_update old (some 0) = 1) ∧
    (∀ (old : Nat) (p : Int), p < 0 → p ≠ -2147483648 →
      gui_kernel_radius_update old (some p) = p.natAbs) ∧
    (∀ old : Nat, gui_kernel_radius_update old (some (-2147483648)) = 18446744071562067968) ∧
    (∀ (old : Nat) (b : Int), b < 1 → gui_num_bins_update old (some b) = 4) := by
  refine ⟨fun r => rfl, rfl, rfl, rfl, fun old => rfl, ?_, fun old => rfl, ?_⟩
  · intro old p hneg hmin
    have hne : p ≠ 0 := by omega
    simp [gui_kernel_radius_update, i32_abs_as_usize, hne, hmin]
  · intro old b hb
    simp [gui_num_bins_update, hb]

/-- Witness for C10's amended theorem: the hypotheses hold at the
concrete entries -3 (radius) and 0 (bins), and the theorem yields the
normalized values. -/
theorem c10_numeric_option_normalization_witness :
    ((-3 : Int) < 0 ∧ (-3 : Int) ≠ -2147483648 ∧
      gui_kernel_radius_update 7 (some (-3)) = 3) ∧
    ((0 : Int) < 1 ∧ gui_num_bins_update 9 (some 0) = 4) := by
  constructor
  · refine ⟨by norm_num, by norm_num, ?_⟩
    have h := c10_numeric_option_normalization.2.2.2.2.2.1 7 (-3) (by norm_num) (by norm_num)
    simpa using h
  · exact ⟨by norm_num, c10_numeric_option_normalization.2.2.2.2.2.2.2 9 0 (by norm_num)⟩

/-- Claim C10 counterexample: the kernel-radius entry -2147483648 parses
as an i32, yet the committed radius is not its absolute value
2147483648 — the abs overflows, and the release-profile wrap followed by
the sign-extending usize cast commits 2^64 - 2^31 (a debug profile
aborts instead), refuting the claim that every negative entry is
replaced by its absolute value. -/
theorem c10_i32_min_overflow_counterexample :
    gui_kernel_radius_update 1 (some (-2147483648)) = 18446744071562067968 ∧
    Int.natAbs (-2147483648) = 2147483648 ∧
    gui_kernel_radius_update 1 (some (-2147483648)) ≠ Int.natAbs (-2147483648) :=
  ⟨by decide, by decide, by decide⟩

/-- Claim C5 (corrected, amended part): update_progress hands the raw
ratio counter over total to the progress widget; whenever the counter is
at most the total and the total is positive, that value coincides with
the spec's clamped fraction and lies in the unit interval. -/
theorem c5_progress_fraction_in_range (state total : Nat) (htot : 0 < total)
    (hle : state ≤ total) :
    update_progress_value state total = fraction_spec_clamped state total ∧
    0 ≤ update_progress_value state total ∧ update_progress_value state total ≤ 1 := by
  have h0 : (0 : ℚ) ≤ update_progress_value state total :=
    div_nonneg (Nat.cast_nonneg _) (Nat.cast_nonneg _)
  have htotQ : (0 : ℚ) < (total : ℚ) := by exact_mod_cast htot
  have h1 : update_progress_value state total ≤ 1 := by
    rw [update_progress_value, div_le_one htotQ]
    exact_mod_cast hle
  refine ⟨?_, h0, h1⟩
  rw [fraction_spec_clamped, max_eq_right h0, min_eq_right h1]

/-- Witness for C5's amended theorem at counter 1 and total 2. -/
theorem c5_progress_fraction_in_range_witness :
    0 < 2 ∧ 1 ≤ 2 ∧
    (update_progress_value 1 2 = fraction_spec_clamped 1 2 ∧
      0 ≤ update_progress_value 1 2 ∧ update_progress_value 1 2 ≤ 1) :=
  ⟨by norm_num, by norm_num, c5_progress_fraction_in_range 1 2 (by norm_num) (by norm_num)⟩

/-- Claim C5 counterexample: at counter 3 and total 2 the value handed
to the widget is 3/2, which lies outside the unit interval and differs
from the spec's clamped fraction, so the rendered value is not the
clamped ratio. -/
theorem c5_unclamped_counterexample :
    update_progress_value 3 2 = 3 / 2 ∧ fraction_spec_clamped 3 2 = 1 ∧
    ¬ update_progress_value 3 2 ≤ 1 := by
  norm_num [update_progress_value, fraction_spec_clamped]

/-- Claim C6 (corrected, amended part): both write stages read the slice
for feature f at offset equal to f's enum discriminant times the volume
element count, with length the element count; this coincides with the
spec's requested-set indexing exactly when the requested set is the full
feature enumeration in declaration order. -/
theorem c6_slice_offset_is_discriminant (f : GLCMFeature) (stride : Nat) :
    cliFeatureSlice f stride = specFeatureSlice allGLCMFeatures f stride ∧
    guiFeatureSlice f stride = cliFeatureSlice f stride := by
  cases f <;> exact ⟨rfl, rfl⟩

/-- Claim C6 counterexample: with the requested feature set being the
singleton containing contrast and a 4x4x4 volume (64 elements), the
drivers read the slice at offset discriminant-times-64 = 128, while
requested-set indexing would read offset 0. -/
theorem c6_requested_index_counterexample :
    cliFeatureSlice GLCMFeature.contrast 64 = (128, 64) ∧
    specFeatureSlice [GLCMFeature.contrast] GLCMFeature.contrast 64 = (0, 64) ∧
    cliFeatureSlice GLCMFeature.contrast 64 ≠
      specFeatureSlice [GLCMFeature.contrast] GLCMFeature.contrast 64 :=
  ⟨rfl, rfl, by decide⟩

/-- When no dot occurs behind the head of the scan, the dot character is
not a member of the scanned list. -/
theorem extAfterLastDot_none_not_mem : ∀ cs : List Char, extAfterLastDot cs = none → '.' ∉ cs := by
  intro cs
  induction cs with
  | nil => intro _ h; exact List.not_mem_nil _ h
  | cons c rest ih =>
    intro h hmem
    cases hrec : extAfterLastDot rest with
    | some e => simp [extAfterLastDot, hrec] at h
    | none =>
      simp [extAfterLastDot, hrec] at h
      rcases List.mem_cons.mp hmem with h1 | h1
      · exact h h1.symm
      · exact ih hrec h1

/-- The extension returned by the last-dot scan never contains a dot. -/
theorem extAfterLastDot_some_not_mem :
    ∀ cs e : List Char, extAfterLastDot cs = some e → '.' ∉ e := by
  intro cs
  induction cs with
  | nil => intro e h; simp [extAfterLastDot] at h
  | cons c rest ih =>
    intro e h
    cases hrec : extAfterLastDot rest with
    | some e2 =>
      simp [extAfterLastDot, hrec] at h
      exact h ▸ ih e2 hrec
    | none =>
      simp [extAfterLastDot, hrec] at h
      obtain ⟨hc, hrest⟩ := h
      subst hrest
      exact extAfterLastDot_none_not_mem rest hrec

/-- The file-name extension never contains a dot. -/
theorem fileExtensionList_no_dot :
    ∀ cs l : List Char, fileExtensionList cs = some l → '.' ∉ l := by
  intro cs l h
  cases cs with
  | nil => simp [fileExtensionList] at h
  | cons c rest =>
    by_cases hc : c = '.'
    · rw [fileExtensionList, if_pos hc] at h
      exact extAfterLastDot_some_not_mem rest l h
    · rw [fileExtensionList, if_neg hc] at h
      exact extAfterLastDot_some_not_mem (c :: rest) l h

/-- Claim C8 (confirmed): for every input path whose final dot-separated
component is gz (every file ending in .nii.gz in particular) the loaders
compare against the string gz, so the branch testing the dotted string
nii.gz is never taken — an extension can never contain a dot; such paths
take the CLI's unsupported-format branch and are routed to the NRRD
reader by the GUI loader. -/
theorem c8_final_gz_component :
    (∀ fname : String, fileExtension fname ≠ some "nii.gz") ∧
    (∀ fname : String, fileExtension fname = some "gz" →
      read_volume fname = ReadVolumeResult.unsupportedPanic ∧
      gui_load fname = ReadVolumeResult.read VolCodec.nrrd) := by
  constructor
  · intro fname h
    rw [fileExtension] at h
    obtain ⟨l, hl2, hmk⟩ := Option.map_eq_some'.mp h
    have hdata : l = "nii.gz".toList := by
      have h2 := congrArg String.toList hmk
      simpa using h2
    have hdot : '.' ∈ l := by rw [hdata]; decide
    exact fileExtensionList_no_dot _ l hl2 hdot
  · intro fname h
    constructor
    · unfold read_volume
      rw [h]
      decide
    · unfold gui_load
      rw [h]
      decide

/-- Witness for C8 at the concrete file name vol.nii.gz. -/
theorem c8_final_gz_component_witness :
    fileExtension "vol.nii.gz" = some "gz" ∧
    read_volume "vol.nii.gz" = ReadVolumeResult.unsupportedPanic ∧
    gui_load "vol.nii.gz" = ReadVolumeResult.read VolCodec.nrrd :=
  ⟨by decide, (c8_final_gz_component.2 "vol.nii.gz" (by decide)).1,
    (c8_final_gz_component.2 "vol.nii.gz" (by decide)).2⟩

/-- Claim C4 (corrected, amended part): dispatch keys on the final
extension component: nii routes to the NIfTI codec in both loaders,
nhdr or nrrd routes to the NRRD codec in both, and any other component
aborts the CLI before any read while the GUI loader, which has no
unsupported-extension branch, routes it to the NRRD reader. -/
theorem c4_extension_dispatch (fname ext : String)
    (h : fileExtension fname = some ext) :
    (ext = "nii" → read_volume fname = ReadVolumeResult.read VolCodec.nifti ∧
      gui_load fname = ReadVolumeResult.read VolCodec.nifti) ∧
    ((ext = "nhdr" ∨ ext = "nrrd") →
      read_volume fname = ReadVolumeResult.read VolCodec.nrrd ∧
      gui_load fname = ReadVolumeResult.read VolCodec.nrrd) ∧
    (ext ≠ "nii" → ext ≠ "nii.gz" → ext ≠ "nhdr" → ext ≠ "nrrd" →
      read_volume fname = ReadVolumeResult.unsupportedPanic ∧
      gui_load fname = ReadVolumeResult.read VolCodec.nrrd) := by
  refine ⟨?_, ?_, ?_⟩
  · intro he
    subst he
    constructor
    · unfold read_volume; rw [h]; decide
    · unfold gui_load; rw [h]; decide
  · intro he
    rcases he with he | he <;> subst he <;> constructor
    · unfold read_volume; rw [h]; decide
    · unfold gui_load; rw [h]; decide
    · unfold read_volume; rw [h]; decide
    · unfold gui_load; rw [h]; decide
  · intro h1 h2 h3 h4
    constructor
    · unfold read_volume
      rw [h]
      simp [h1, h2, h3, h4]
    · unfold gui_load
      rw [h]
      simp [h1, h2]

/-- Witness for C4's amended theorem at the concrete file name
vol.nrrd. -/
theorem c4_extension_dispatch_witness :
    fileExtension "vol.nrrd" = some "nrrd" ∧
    read_volume "vol.nrrd" = ReadVolumeResult.read VolCodec.nrrd ∧
    gui_load "vol.nrrd" = ReadVolumeResult.read VolCodec.nrrd :=
  ⟨by decide,
    ((c4_extension_dispatch "vol.nrrd" "nrrd" (by decide)).2.1 (Or.inr rfl)).1,
    ((c4_extension_dispatch "vol.nrrd" "nrrd" (by decide)).2.1 (Or.inr rfl)).2⟩

/-- Claim C4 counterexample: the claim routes the recognized
volumetric-image extension of a .nii.gz path to the NIfTI codec and
makes any unrecognized extension a hard failure in both loaders; in
fact the CLI aborts on vol.nii.gz as unsupported, and the GUI loader
reads a .txt path through the NRRD codec instead of failing. -/
theorem c4_dispatch_counterexample :
    read_volume "vol.nii.gz" = ReadVolumeResult.unsupportedPanic ∧
    read_volume "vol.nii.gz" ≠ ReadVolumeResult.read VolCodec.nifti ∧
    gui_load "notes.txt" = ReadVolumeResult.read VolCodec.nrrd ∧
    gui_load "notes.txt" ≠ ReadVolumeResult.unsupportedPanic := by
  refine ⟨by decide, by decide, by decide, by decide⟩

/-- Claim C2 (code bug): with volume shape (64,64,32) and mask shape
(64,64,16), the GUI compute worker terminates abnormally on the shape
assert, and the driver tick that observes the finished worker joins it
through an expect call, terminating the driving thread itself instead of
transitioning a status label to a failed state. -/
theorem c2_worker_panic_crashes_gui :
    guiComputeWorker [(GLCMFeature.contrast, [])] [64, 64, 32] (some [64, 64, 16]) =
      WorkerOutcome.panicked ∧
    update_glcm_launcher_join
      (guiComputeWorker [(GLCMFeature.contrast, [])] [64, 64, 32] (some [64, 64, 16])) =
      GuiJoinResult.driverPanic :=
  ⟨by decide, by decide⟩

/-- Once the bar position has reached the total, the poll loop runs no
iteration. -/
theorem pollLoop_of_ge (total pos : Nat) (h : total ≤ pos) :
    ∀ snaps : List Nat, pollLoop total pos snaps = [] := by
  intro snaps
  cases snaps with
  | nil => rfl
  | cons v rest => simp [pollLoop, Nat.not_lt.mpr h]

/-- Shape of the poll loop when some observation reaches the total: a
run of below-total polls, then the first at-or-above-total poll and its
sleep, and nothing after. -/
theorem pollLoop_spec :
    ∀ (snaps : List Nat) (pos total : Nat), pos < total →
      (∃ v, v ∈ snaps ∧ total ≤ v) →
      ∃ pre w, total ≤ w ∧ (∀ u, CliEvent.pollSnap u ∈ pre → u < total) ∧
        pollLoop total pos snaps = pre ++ [CliEvent.pollSnap w, CliEvent.sleepTick] := by
  intro snaps
  induction snaps with
  | nil =>
    intro pos total _ hex
    obtain ⟨v, hv, _⟩ := hex
    exact absurd hv (List.not_mem_nil v)
  | cons v rest ih =>
    intro pos total hpos hex
    by_cases hv : total ≤ v
    · refine ⟨[], v, hv, ?_, ?_⟩
      · intro u hu
        exact absurd hu (List.not_mem_nil _)
      · simp [pollLoop, hpos, pollLoop_of_ge total v hv rest]
    · push_neg at hv
      obtain ⟨u, hu, htu⟩ := hex
      have hu2 : u ∈ rest := by
        rcases List.mem_cons.mp hu with h1 | h1
        · exact absurd htu (by omega)
        · exact h1
      obtain ⟨pre, w, hw, hpre, heq⟩ := ih v total hv ⟨u, hu2, htu⟩
      refine ⟨CliEvent.pollSnap v :: CliEvent.sleepTick :: pre, w, hw, ?_, ?_⟩
      · intro u2 hu3
        rcases List.mem_cons.mp hu3 with h1 | h1
        · injection h1 with h1e
          omega
        · rcases List.mem_cons.mp h1 with h2 | h2
          · exact CliEvent.noConfusion h2
          · exact hpre u2 h2
      · simp [pollLoop, hpos, heq]

/-- Claim C7 (corrected, amended part): after spawning the compute task,
the CLI driver with the progress display enabled polls the shared
counter (sleeping between reads) until an observation reaches the total,
and only then joins the compute task and writes every output inline;
with the display disabled via the progress flag it joins immediately
after the spawn, with no poll, and then writes inline. -/
theorem c7_cli_poll_then_join (total : Nat) (snaps : List Nat) (feats : List GLCMFeature)
    (htot : 0 < total) (hex : ∃ v, v ∈ snaps ∧ total ≤ v) :
    (∃ pre w, total ≤ w ∧ (∀ u, CliEvent.pollSnap u ∈ pre → u < total) ∧
      cliComputePhase true total snaps feats =
        [CliEvent.spawnCompute] ++ (pre ++ [CliEvent.pollSnap w, CliEvent.sleepTick])
          ++ [CliEvent.joinCompute] ++ feats.map CliEvent.writeOut) ∧
    cliComputePhase false total snaps feats =
      [CliEvent.spawnCompute] ++ [CliEvent.joinCompute] ++ feats.map CliEvent.writeOut := by
  constructor
  · obtain ⟨pre, w, hw, hpre, heq⟩ := pollLoop_spec snaps 0 total htot hex
    exact ⟨pre, w, hw, hpre, by simp [cliComputePhase, heq]⟩
  · simp [cliComputePhase]

/-- Witness for C7's amended theorem: total 2, observations 1 then 2,
single feature contrast. -/
theorem c7_cli_poll_then_join_witness :
    0 < 2 ∧ ((2 : Nat) ∈ [1, 2] ∧ 2 ≤ 2) ∧
    ((∃ pre w, 2 ≤ w ∧ (∀ u, CliEvent.pollSnap u ∈ pre → u < 2) ∧
      cliComputePhase true 2 [1, 2] [GLCMFeature.contrast] =
        [CliEvent.spawnCompute] ++ (pre ++ [CliEvent.pollSnap w, CliEvent.sleepTick])
          ++ [CliEvent.joinCompute] ++ [GLCMFeature.contrast].map CliEvent.writeOut) ∧
    cliComputePhase false 2 [1, 2] [GLCMFeature.contrast] =
      [CliEvent.spawnCompute] ++ [CliEvent.joinCompute]
        ++ [GLCMFeature.contrast].map CliEvent.writeOut) :=
  ⟨by norm_num, by decide,
    c7_cli_poll_then_join 2 [1, 2] [GLCMFeature.contrast] (by norm_num) ⟨2, by decide⟩⟩

/-- Claim C7 counterexample: a CLI run with the progress display
disabled and a non-empty volume performs no poll at all — the phase
trace is exactly spawn, join, write — refuting the claim that every run
loops on the counter until it reaches the total before joining. -/
theorem c7_no_poll_when_disabled :
    0 < 64 ∧
    cliComputePhase false 64 [64] [GLCMFeature.contrast] =
      [CliEvent.spawnCompute, CliEvent.joinCompute, CliEvent.writeOut GLCMFeature.contrast] ∧
    (cliComputePhase false 64 [64] [GLCMFeature.contrast]).all (fun e => !e.isPoll) = true :=
  ⟨by norm_num, by decide, by decide⟩

/-- Claim C1 (corrected, amended part): on a shape mismatch the CLI
detects it after both loads and before any compute spawn, terminating in
ShapeMismatch with no compute event in its trace; the GUI instead always
spawns the compute task, whose worker terminates abnormally on the shape
assert before the engine runs. -/
theorem c1_shape_mismatch (allF : Bool) (incl omits : List GLCMFeature)
    (vol ms : List Nat) (flag : Bool) (snaps : List Nat)
    (feats : List (GLCMFeature × List Char))
    (hfe : resolvedFeatures allF incl omits ≠ []) (hms : ms ≠ vol) :
    (cliMain allF incl omits vol (some ms) flag snaps).2 = CliStatus.shapeMismatch ∧
    CliEvent.spawnCompute ∉ (cliMain allF incl omits vol (some ms) flag snaps).1 ∧
    (cliMain allF incl omits vol (some ms) flag snaps).1 =
      [CliEvent.statOutputDir, CliEvent.statInputVol, CliEvent.loadVol, CliEvent.loadMask,
        CliEvent.shapePanic] ∧
    GuiEvent.spawnCompute ∈ (guiLaunch feats vol (some ms)).1 ∧
    guiComputeWorker feats vol (some ms) = WorkerOutcome.panicked := by
  have hcli : cliMain allF incl omits vol (some ms) flag snaps =
      ([CliEvent.statOutputDir, CliEvent.statInputVol, CliEvent.loadVol, CliEvent.loadMask,
        CliEvent.shapePanic], CliStatus.shapeMismatch) := by
    simp [cliMain, hfe, hms]
  refine ⟨by rw [hcli], by rw [hcli]; decide, by rw [hcli], ?_, ?_⟩
  · simp [guiLaunch, guiLaunchTrace]
  · simp [guiComputeWorker, hms]

/-- Witness for C1's amended theorem at volume shape (64,64,32) and mask
shape (64,64,16). -/
theorem c1_shape_mismatch_witness :
    resolvedFeatures true [] [] ≠ [] ∧ ([64, 64, 16] : List Nat) ≠ [64, 64, 32] ∧
    (cliMain true [] [] [64, 64, 32] (some [64, 64, 16]) true []).2 = CliStatus.shapeMismatch ∧
    CliEvent.spawnCompute ∉ (cliMain true [] [] [64, 64, 32] (some [64, 64, 16]) true []).1 ∧
    guiComputeWorker [(GLCMFeature.energy, [])] [64, 64, 32] (some [64, 64, 16]) =
      WorkerOutcome.panicked :=
  ⟨by decide, by decide,
    (c1_shape_mismatch true [] [] [64, 64, 32] [64, 64, 16] true []
      [(GLCMFeature.energy, [])] (by decide) (by decide)).1,
    (c1_shape_mismatch true [] [] [64, 64, 32] [64, 64, 16] true []
      [(GLCMFeature.energy, [])] (by decide) (by decide)).2.1,
    (c1_shape_mismatch true [] [] [64, 64, 32] [64, 64, 16] true []
      [(GLCMFeature.energy, [])] (by decide) (by decide)).2.2.2.2⟩

/-- Claim C1 counterexample: with volume shape (64,64,32) and mask shape
(64,64,16) the GUI launch tick still spawns the compute task, so the run
does not terminate with zero compute tasks spawned in both drivers. -/
theorem c1_gui_spawns_compute_on_mismatch :
    ([64, 64, 16] : List Nat) ≠ [64, 64, 32] ∧
    GuiEvent.spawnCompute ∈
      (guiLaunch [(GLCMFeature.energy, [])] [64, 64, 32] (some [64, 64, 16])).1 :=
  ⟨by decide, by decide⟩

/-- Claim C3 (corrected, amended part): the CLI refuses an empty
resolved feature set before reading any volume, aborting with the
empty-feature failure right after the path existence checks; the GUI
performs no emptiness check at all — a launch with an empty selected
feature set still spawns the loader threads and the compute task. -/
theorem c3_empty_feature_set (allF : Bool) (incl omits : List GLCMFeature)
    (vol : List Nat) (maskS : Option (List Nat)) (flag : Bool) (snaps : List Nat)
    (hfe : resolvedFeatures allF incl omits = []) :
    ((cliMain allF incl omits vol maskS flag snaps).1 =
      [CliEvent.statOutputDir, CliEvent.statInputVol, CliEvent.emptyFeaturePanic] ∧
      (cliMain allF incl omits vol maskS flag snaps).2 = CliStatus.emptyFeatureSet ∧
      CliEvent.loadVol ∉ (cliMain allF incl omits vol maskS flag snaps).1 ∧
      CliEvent.spawnCompute ∉ (cliMain allF incl omits vol maskS flag snaps).1) ∧
    (GuiEvent.spawnVolLoad ∈ (guiLaunch [] vol maskS).1 ∧
      GuiEvent.spawnCompute ∈ (guiLaunch [] vol maskS).1) := by
  have hcli : cliMain allF incl omits vol maskS flag snaps =
      ([CliEvent.statOutputDir, CliEvent.statInputVol, CliEvent.emptyFeaturePanic],
        CliStatus.emptyFeatureSet) := by
    simp [cliMain, hfe]
  refine ⟨⟨by rw [hcli], by rw [hcli], by rw [hcli]; decide, by rw [hcli]; decide⟩, ?_, ?_⟩
  · cases maskS <;> simp [guiLaunch, guiLaunchTrace]
  · cases maskS <;> simp [guiLaunch, guiLaunchTrace]

/-- Witness for C3's amended theorem: no all-features flag and zero
include flags resolve to the empty set. -/
theorem c3_empty_feature_set_witness :
    resolvedFeatures false [] [] = [] ∧
    (cliMain false [] [] [64, 64, 32] none true []).2 = CliStatus.emptyFeatureSet ∧
    CliEvent.loadVol ∉ (cliMain false [] [] [64, 64, 32] none true []).1 :=
  ⟨by decide,
    (c3_empty_feature_set false [] [] [64, 64, 32] none true [] (by decide)).1.2.1,
    (c3_empty_feature_set false [] [] [64, 64, 32] none true [] (by decide)).1.2.2.1⟩

/-- Claim C3 counterexample: the GUI launch tick with an empty selected
feature set still performs file loading and spawns compute, and the
worker invokes the engine over the empty set — there is no fail-fast
empty-feature failure in the GUI driver. -/
theorem c3_gui_no_empty_check :
    GuiEvent.spawnVolLoad ∈ (guiLaunch [] [4, 4, 4] none).1 ∧
    GuiEvent.spawnCompute ∈ (guiLaunch [] [4, 4, 4] none).1 ∧
    guiComputeWorker [] [4, 4, 4] none = WorkerOutcome.engineRan [] :=
  ⟨by decide, by decide, by decide⟩

/-- Mapping two functions over the same list gives different results as
soon as the functions differ on a member. -/
theorem map_ne_map_of_mem {f g : Char → Char} :
    ∀ (l : List Char) (a : Char), a ∈ l → f a ≠ g a → l.map f ≠ l.map g := by
  intro l
  induction l with
  | nil => intro a ha _; exact absurd ha (List.not_mem_nil a)
  | cons b t ih =>
    intro a ha hfg heq
    rw [List.map_cons, List.map_cons] at heq
    injection heq with hhead htail
    rcases List.mem_cons.mp ha with h1 | h1
    · rw [h1] at hfg
      exact hfg hhead
    · exact ih a h1 hfg htail

/-- Claim C9 (confirmed): the alias stored for a feature depends on the
selection path — the default state and the select-all button store the
name with underscores turned into spaces, the individual checkbox stores
the lowercased name with underscores kept — so for any feature whose
display name contains an underscore, the two paths store different
aliases and, since output file names append the alias verbatim, produce
different output file names (and the alias-sorted write order keys on
these differing aliases). -/
theorem c9_alias_depends_on_selection_path (name stem : List Char) (h : '_' ∈ name) :
    feature_display_alias name ≠ feature_checkbox_alias name ∧
    gui_output_file_name stem (feature_display_alias name) ≠
      gui_output_file_name stem (feature_checkbox_alias name) := by
  have hne : name.map (fun c => if c = '_' then ' ' else c) ≠ name.map Char.toLower :=
    map_ne_map_of_mem name '_' h (by decide)
  refine ⟨hne, ?_⟩
  intro heq
  rw [gui_output_file_name, gui_output_file_name] at heq
  have h2 := List.append_cancel_left heq
  injection h2 with _ h3
  exact hne h3

/-- Witness for C9 at the underscored feature name sum_average and input
stem vol. -/
theorem c9_alias_depends_on_selection_path_witness :
    '_' ∈ "sum_average".toList ∧
    feature_display_alias "sum_average".toList ≠ feature_checkbox_alias "sum_average".toList ∧
    gui_output_file_name "vol".toList (feature_display_alias "sum_average".toList) ≠
      gui_output_file_name "vol".toList (feature_checkbox_alias "sum_average".toList) :=
  ⟨by decide,
    (c9_alias_depends_on_selection_path "sum_average".toList "vol".toList (by decide)).1,
    (c9_alias_depends_on_selection_path "sum_average".toList "vol".toList (by decide)).2⟩

end Radmap
